import Mathlib

/-!
Shallow embedding of the image-generation API route of the `gemini-api`
repository.

Two handler versions exist in the repository:
* `app/api/generate-image/route.ts` (under `src/`): auth check → prompt
  moderation via a Gemini text model → Gemini image generation → Cloudinary
  upload → JSON response.  Embedded below as `POST`.
* a later route variant (in the repository's related documents): auth check →
  Stability key-rotation chain with Gemini as fallback → Cloudinary upload.
  Embedded below as `POSTv2`.

External HTTP collaborators (moderation model, image model, Stability API,
Cloudinary uploader) are modelled as oracle functions carried in an
environment record; a thrown JS exception is an `Except.error` carrying the
error's `message` string.  Each handler also returns a call log so that
"no downstream call is attempted" style properties are expressible.
-/

namespace GeminiApi

/-- The `inlineData` of a Gemini response part: base64 payload plus MIME type. -/
structure InlineData where
  mimeType : String
  data : String
deriving DecidableEq, Repr

/-- One part of a Gemini candidate's content.  `text` and `inlineData` are
optional exactly as in the SDK's duck-typed shape. -/
structure Part where
  text : Option String := none
  inlineData : Option InlineData := none
deriving DecidableEq, Repr

/-- Field `content` of a Gemini candidate. -/
structure Content where
  parts : List Part
deriving DecidableEq, Repr

/-- One Gemini candidate. -/
structure Candidate where
  content : Content
deriving DecidableEq, Repr

/-- A Gemini image-generation response: `candidates` may be absent
(JS `undefined`), and `promptFeedback` is kept opaque as a string. -/
structure GenResponse where
  candidates : Option (List Candidate) := none
  promptFeedback : String := ""
deriving DecidableEq, Repr

/-- Result of the moderation model call: the response `text()` plus the
opaque `promptFeedback`. -/
structure ModResult where
  text : String
  promptFeedback : String := ""
deriving DecidableEq, Repr

/-- Cloudinary upload result; `secure_url` may be absent. -/
structure UploadResult where
  secure_url : Option String := none
deriving DecidableEq, Repr

/-- The parsed JSON request body
`{ prompt, chatId, userId, sharedSecret }`. -/
structure Req where
  prompt : String
  chatId : Int
  userId : String
  sharedSecret : String
deriving DecidableEq, Repr

/-- The `generatedImage` object of a success response.  `imageUrl` is optional
because the later route variant copies `uploadResult.secure_url` into it
without a null check. -/
structure GeneratedImageOut where
  mimeType : String
  caption : String
  imageUrl : Option String := none
deriving DecidableEq, Repr

/-- The JSON response together with its HTTP status.  Fields absent from a
given response shape are `none`; `statusField` is the body's `"status"`
key. -/
structure ApiResponse where
  httpStatus : Nat
  error : Option String := none
  statusField : Option String := none
  message : Option String := none
  prompt : Option String := none
  moderationFeedback : Option String := none
  imageUrl : Option String := none
  generatedImage : Option GeneratedImageOut := none
  geminiResponse : Option GenResponse := none
  cloudinaryError : Option String := none
  details : Option String := none
deriving DecidableEq, Repr

/-- Log of outbound calls made by `POST`: number of moderation-model calls,
number of Gemini image-generation calls, and the Cloudinary upload calls as
`(payload, public_id)` pairs in order. -/
structure CallLog where
  moderationCalls : Nat := 0
  geminiCalls : Nat := 0
  uploadCalls : List (String × String) := []
deriving DecidableEq, Repr

/-- Environment of `POST`: the configured `SHARED_SECRET` and the external
collaborators as oracles.  `now` is the value `Date.now()` returns during
the request. -/
structure Env where
  sharedSecret : String
  moderate : String → Except String ModResult
  generate : String → Except String GenResponse
  upload : String → String → Except String UploadResult
  now : Nat

/-- The outer `catch` block: HTTP 500 with `message: error.message ||
'Internal server error'`, the prompt recorded so far, and an opaque
`details` serialization of the error. -/
def catchResponse (errMsg recordedPrompt : String) : ApiResponse :=
  { httpStatus := 500
    statusField := some "error"
    message := some (if errMsg = "" then "Internal server error" else errMsg)
    prompt := some recordedPrompt
    details := some errMsg }

/-- JS `String.prototype.trim`, modelled over the character list. -/
def jsTrim (s : String) : String :=
  ⟨((s.data.dropWhile Char.isWhitespace).reverse.dropWhile Char.isWhitespace).reverse⟩

/-- JS `String.prototype.toUpperCase`, modelled over the character list. -/
def jsToUpper (s : String) : String :=
  ⟨s.data.map Char.toUpper⟩

/-- JS `String.prototype.startsWith`. -/
def jsStartsWith (s tok : String) : Bool :=
  s.data.take tok.data.length = tok.data

/-- JS `String.prototype.substring(n)`: drop the first `n` characters. -/
def jsDrop (s : String) (n : Nat) : String :=
  ⟨s.data.drop n⟩

/-- JS predicate for the image part:
`p.inlineData && p.inlineData.mimeType.startsWith('image/')`. -/
def isImagePart (p : Part) : Bool :=
  p.inlineData.any fun d => jsStartsWith d.mimeType "image/"

/-- JS predicate for the text part: `p.text` is truthy, i.e. present and
non-empty. -/
def isTextPart (p : Part) : Bool :=
  p.text.getD "" ≠ ""

/-- The `POST` handler of `app/api/generate-image/route.ts`.  The request body is
`Except.error msg` when `req.json()` throws (invalid JSON), carrying the
thrown error's message. -/
def POST (env : Env) (body : Except String Req) : ApiResponse × CallLog :=
  match body with
  | .error e => (catchResponse e "", {})
  | .ok req =>
    if req.sharedSecret ≠ env.sharedSecret then
      ({ httpStatus := 401, error := some "Unauthorized request" }, {})
    else
      match env.moderate req.prompt with
      | .error e => (catchResponse e req.prompt, { moderationCalls := 1 })
      | .ok modRes =>
        let moderationResponseText := jsTrim modRes.text
        if jsStartsWith (jsToUpper moderationResponseText) "UNSAFE" then
          let reason := jsTrim (jsDrop moderationResponseText 5)
          ({ httpStatus := 200
             statusField := some "moderated"
             message := some (if reason = "" then "Content deemed unsafe." else reason)
             prompt := some req.prompt
             moderationFeedback := some modRes.promptFeedback },
           { moderationCalls := 1 })
        else
          match env.generate req.prompt with
          | .error e => (catchResponse e req.prompt, { moderationCalls := 1, geminiCalls := 1 })
          | .ok gr =>
            match gr.candidates with
            | none =>
              ({ httpStatus := 500
                 statusField := some "error"
                 message := some "No image candidates found"
                 prompt := some req.prompt
                 geminiResponse := some gr },
               { moderationCalls := 1, geminiCalls := 1 })
            | some [] =>
              ({ httpStatus := 500
                 statusField := some "error"
                 message := some "No image candidates found"
                 prompt := some req.prompt
                 geminiResponse := some gr },
               { moderationCalls := 1, geminiCalls := 1 })
            | some (c :: _) =>
              match c.content.parts.find? isImagePart with
              | some imagePart =>
                match imagePart.inlineData with
                | some d =>
                  let imageData := d.data
                  let mimeType := d.mimeType
                  let caption :=
                    match c.content.parts.find? isTextPart with
                    | some textPart => textPart.text.getD ""
                    | none => req.prompt
                  let dataUrl := "data:" ++ mimeType ++ ";base64," ++ imageData
                  let publicId := "gemini-gen-" ++ Nat.repr env.now
                  match env.upload dataUrl publicId with
                  | .error ce =>
                    ({ httpStatus := 500
                       statusField := some "error"
                       message := some "Failed to upload image to cloud storage"
                       prompt := some req.prompt
                       cloudinaryError := some ce },
                     { moderationCalls := 1, geminiCalls := 1,
                       uploadCalls := [(dataUrl, publicId)] })
                  | .ok ur =>
                    -- JS `if (!imageUrl)`: null/undefined or empty string.
                    if ur.secure_url.getD "" = "" then
                      ({ httpStatus := 500
                         statusField := some "error"
                         message := some "Image URL not available"
                         prompt := some req.prompt },
                       { moderationCalls := 1, geminiCalls := 1,
                         uploadCalls := [(dataUrl, publicId)] })
                    else
                      ({ httpStatus := 200
                         statusField := some "success"
                         imageUrl := some (ur.secure_url.getD "")
                         message := some caption
                         prompt := some req.prompt
                         generatedImage := some
                           { mimeType := mimeType
                             caption := caption
                             imageUrl := some (ur.secure_url.getD "") }
                         geminiResponse := some gr },
                       { moderationCalls := 1, geminiCalls := 1,
                         uploadCalls := [(dataUrl, publicId)] })
                | none =>
                  ({ httpStatus := 500
                     statusField := some "error"
                     message := some "No image part found in Gemini response"
                     prompt := some req.prompt
                     geminiResponse := some gr },
                   { moderationCalls := 1, geminiCalls := 1 })
              | none =>
                ({ httpStatus := 500
                   statusField := some "error"
                   message := some "No image part found in Gemini response"
                   prompt := some req.prompt
                   geminiResponse := some gr },
                 { moderationCalls := 1, geminiCalls := 1 })

/-- Call log of `POSTv2`: Stability attempts (one per tried key), Gemini
fallback calls, and upload calls as `(payload, public_id)` pairs. -/
structure CallLog2 where
  stabilityAttempts : Nat := 0
  geminiCalls : Nat := 0
  uploadCalls : List (String × String) := []
deriving DecidableEq, Repr

/-- Environment of the later route variant.  `stability prompt key` models
one `generateWithStability` call: `Except.error msg` when the attempt throws
(non-success HTTP status, or a malformed payload failing `res.json()`), and
`Except.ok b` when the request succeeds, where `b` is the extracted
`data.image || data.artifacts?.[0]?.base64 || ...` field (`none` when the
response carries no image field). -/
structure Env2 where
  sharedSecret : String
  stabilityKeys : List String
  stability : String → String → Except String (Option String)
  generate : String → Except String GenResponse
  upload : String → String → Except String UploadResult
  now : Nat

/-- The `for` loop over `STABILITY_KEYS`: each thrown attempt is caught and
the next key tried; a non-throwing attempt `break`s immediately with its
(possibly absent) base64 field.  Returns the final `imageBase64` value and
the number of attempts made. -/
def tryKeys (env : Env2) (promptText : String) : List String → Option String × Nat
  | [] => (none, 0)
  | k :: ks =>
    match env.stability promptText k with
    | .ok b => (b, 1)
    | .error _ =>
      let r := tryKeys env promptText ks
      (r.1, r.2 + 1)

/-- JS truthiness of the `imageBase64` variable: a present, non-empty
string. -/
def truthy (o : Option String) : Bool :=
  o.getD "" ≠ ""

/-- Cloudinary upload step of the later route variant (no null check on
`secure_url` before building the success response). -/
def uploadAndRespond (env : Env2) (req : Req)
    (imageBase64 mimeType caption : String) (log : CallLog2) :
    ApiResponse × CallLog2 :=
  let dataUrl := "data:" ++ mimeType ++ ";base64," ++ imageBase64
  let publicId := "generated-" ++ Nat.repr env.now
  let log := { log with uploadCalls := log.uploadCalls ++ [(dataUrl, publicId)] }
  match env.upload dataUrl publicId with
  | .error ce =>
    ({ httpStatus := 500
       statusField := some "error"
       message := some "Failed to upload image to cloud storage"
       prompt := some req.prompt
       cloudinaryError := some ce }, log)
  | .ok ur =>
    ({ httpStatus := 200
       statusField := some "success"
       imageUrl := ur.secure_url
       message := some caption
       prompt := some req.prompt
       generatedImage := some
         { mimeType := mimeType
           caption := caption
           imageUrl := ur.secure_url } }, log)

/-- The later route variant's `POST` (Stability key rotation, Gemini
fallback, no moderation stage). -/
def POSTv2 (env : Env2) (body : Except String Req) : ApiResponse × CallLog2 :=
  match body with
  | .error e => (catchResponse e "", {})
  | .ok req =>
    if req.sharedSecret ≠ env.sharedSecret then
      ({ httpStatus := 401, error := some "Unauthorized request" }, {})
    else
      let stab := tryKeys env req.prompt env.stabilityKeys
      let log0 : CallLog2 := { stabilityAttempts := stab.2 }
      if truthy stab.1 then
        -- Stability succeeded: mimeType stays 'image/png', caption stays the prompt.
        uploadAndRespond env req (stab.1.getD "") "image/png" req.prompt log0
      else
        let log1 := { log0 with geminiCalls := 1 }
        match env.generate req.prompt with
        | .error e => (catchResponse e req.prompt, log1)
        | .ok gr =>
          match gr.candidates with
          | none =>
            ({ httpStatus := 500
               statusField := some "error"
               message := some "No image candidates found"
               prompt := some req.prompt
               geminiResponse := some gr }, log1)
          | some [] =>
            ({ httpStatus := 500
               statusField := some "error"
               message := some "No image candidates found"
               prompt := some req.prompt
               geminiResponse := some gr }, log1)
          | some (c :: _) =>
            match c.content.parts.find? isImagePart with
            | some imagePart =>
              match imagePart.inlineData with
              | some d =>
                let caption :=
                  match c.content.parts.find? isTextPart with
                  | some textPart => textPart.text.getD ""
                  | none => req.prompt
                -- `if (!imageBase64)` re-check after the Gemini path.
                if d.data = "" then
                  ({ httpStatus := 500
                     statusField := some "error"
                     message := some "Failed to generate image from any provider"
                     prompt := some req.prompt }, log1)
                else
                  uploadAndRespond env req d.data d.mimeType caption log1
              | none =>
                ({ httpStatus := 500
                   statusField := some "error"
                   message := some "No image part found in Gemini response"
                   prompt := some req.prompt
                   geminiResponse := some gr }, log1)
            | none =>
              ({ httpStatus := 500
                 statusField := some "error"
                 message := some "No image part found in Gemini response"
                 prompt := some req.prompt
                 geminiResponse := some gr }, log1)

/-- The prompt a response should echo: the parsed prompt, or the initialized
empty-string default when the body failed to parse. -/
def recordedPrompt (body : Except String Req) : String :=
  match body with
  | .ok r => r.prompt
  | .error _ => ""

/-- Decimal value of a digit character. -/
def decDigit (c : Char) : Nat := c.toNat - 48

/-- Decode a list of decimal digit characters, most significant first. -/
def decodeDigits (l : List Char) : Nat :=
  l.foldl (fun a c => a * 10 + decDigit c) 0

/-- Sample environment whose moderation model answers `t` and whose other
collaborators fail; used by concrete evaluations. -/
def mkEnv (t : String) : Env :=
  { sharedSecret := "secret"
    moderate := fun _ => .ok { text := t }
    generate := fun _ => .error "boom"
    upload := fun _ _ => .error "boom"
    now := 0 }

/-- Sample authorized request. -/
def sampleReq : Req :=
  { prompt := "a cat", chatId := 1, userId := "u", sharedSecret := "secret" }

/-- Sample authorized request with a different prompt. -/
def sampleReq2 : Req :=
  { prompt := "a dog", chatId := 2, userId := "v", sharedSecret := "secret" }

/-- Environment in which every pipeline stage succeeds; the clock is a
parameter. -/
def successEnv (now : Nat) : Env :=
  { sharedSecret := "secret"
    moderate := fun _ => .ok { text := "SAFE" }
    generate := fun _ => .ok
      { candidates := some
          [{ content := { parts :=
              [{ text := some "a red fox" },
               { inlineData := some { mimeType := "image/png", data := "AAAA" } }] } }] }
    upload := fun _ _ => .ok { secure_url := some "https://cdn.example/img.png" }
    now := now }

/-- Two-key environment whose first key throws and second succeeds. -/
def env2chain : Env2 :=
  { sharedSecret := "secret"
    stabilityKeys := ["k1", "k2"]
    stability := fun _ k => if k = "k2" then .ok (some "IMG") else .error "bad"
    generate := fun _ => .ok { candidates := some [] }
    upload := fun _ _ => .ok { secure_url := some "https://cdn.example/s.png" }
    now := 7 }

/-- Two-key environment whose first key answers HTTP success without an image
field while the second would succeed. -/
def env2skip : Env2 :=
  { env2chain with
    stability := fun _ k => if k = "k1" then .ok none else .ok (some "IMG") }

/-- Environment where every key throws and Gemini returns an empty candidate
list. -/
def env2allfail : Env2 :=
  { env2chain with stability := fun _ _ => .error "bad" }

theorem decDigit_digitChar (m : Nat) (h : m < 10) :
    decDigit (Nat.digitChar m) = m := by
  interval_cases m <;> rfl

theorem toDigitsCore_append (b : Nat) (fuel : Nat) :
    ∀ (n : Nat) (l : List Char),
      Nat.toDigitsCore b fuel n l = Nat.toDigitsCore b fuel n [] ++ l := by
  induction fuel with
  | zero => intro n l; simp [Nat.toDigitsCore]
  | succ fuel ih =>
    intro n l
    simp only [Nat.toDigitsCore]
    by_cases h : n / b = 0
    · simp [h]
    · simp only [h, if_false]
      rw [ih (n / b) (Nat.digitChar (n % b) :: l), ih (n / b) [Nat.digitChar (n % b)]]
      simp

theorem decode_toDigitsCore (fuel : Nat) :
    ∀ n : Nat, n < fuel → decodeDigits (Nat.toDigitsCore 10 fuel n []) = n := by
  induction fuel with
  | zero => omega
  | succ fuel ih =>
    intro n hn
    simp only [Nat.toDigitsCore]
    by_cases h : n / 10 = 0
    · have hlt10 : n < 10 := by omega
      simp [h, decodeDigits, Nat.mod_eq_of_lt hlt10, decDigit_digitChar n hlt10]
    · simp only [h, if_false]
      rw [toDigitsCore_append, decodeDigits, List.foldl_append]
      have hlt : n / 10 < fuel := by
        have : n / 10 < n := Nat.div_lt_self (by omega) (by omega)
        omega
      have := ih (n / 10) hlt
      rw [decodeDigits] at this
      rw [this]
      simp [decDigit_digitChar (n % 10) (by omega)]
      omega

theorem repr_injective {m n : Nat} (h : Nat.repr m = Nat.repr n) : m = n := by
  have hd : Nat.toDigitsCore 10 (m + 1) m [] = Nat.toDigitsCore 10 (n + 1) n [] := by
    have := congrArg String.data h
    simpa [Nat.repr, Nat.toDigits, List.asString] using this
  have hm := decode_toDigitsCore (m + 1) m (Nat.lt_succ_self m)
  have hn := decode_toDigitsCore (n + 1) n (Nat.lt_succ_self n)
  rw [← hm, ← hn, hd]

theorem publicId_injective (s : String) {m n : Nat}
    (h : s ++ Nat.repr m = s ++ Nat.repr n) : m = n := by
  apply repr_injective
  have := congrArg String.data h
  simp only [String.data_append] at this
  exact String.ext (List.append_cancel_left this)

/-- C1: a request whose sharedSecret differs from the configured secret gets
exactly the 401 `Unauthorized request` body and no downstream call. -/
theorem unauthorizedShortCircuit (env : Env) (req : Req)
    (h : req.sharedSecret ≠ env.sharedSecret) :
    POST env (.ok req) =
      ({ httpStatus := 401, error := some "Unauthorized request" },
       { moderationCalls := 0, geminiCalls := 0, uploadCalls := [] }) := by
  simp [POST, h]

theorem unauthorizedShortCircuit_witness :
    ("wrong" : String) ≠ "secret" ∧
    POST (mkEnv "SAFE") (.ok { sampleReq with sharedSecret := "wrong" }) =
      ({ httpStatus := 401, error := some "Unauthorized request" },
       { moderationCalls := 0, geminiCalls := 0, uploadCalls := [] }) :=
  ⟨by decide, unauthorizedShortCircuit _ _ (by decide)⟩

/-- C9: an unparsable body is caught by the outer boundary: HTTP 500, status
`error`, prompt the empty-string default, not the 401 shape, no calls. -/
theorem invalidJsonCaught (env : Env) (msg : String) :
    (POST env (.error msg)).1.httpStatus = 500 ∧
    (POST env (.error msg)).1.httpStatus ≠ 401 ∧
    (POST env (.error msg)).1.statusField = some "error" ∧
    (POST env (.error msg)).1.error = none ∧
    (POST env (.error msg)).1.prompt = some "" ∧
    (POST env (.error msg)).2 =
      { moderationCalls := 0, geminiCalls := 0, uploadCalls := [] } := by
  simp [POST, catchResponse]

/-- C10: the response and call log do not depend on the request's userId. -/
theorem userIdIndependence (env : Env) (p : String) (c : Int) (u1 u2 s : String) :
    POST env (.ok { prompt := p, chatId := c, userId := u1, sharedSecret := s }) =
    POST env (.ok { prompt := p, chatId := c, userId := u2, sharedSecret := s }) := rfl

/-- C2 (code bug): `substring(5)` keeps the last letter of the 6-character
token `UNSAFE`, so the moderated message is `E`-prefixed and the generic
default can never fire. -/
theorem moderationSubstringBug :
    (POST (mkEnv "UNSAFE too violent") (.ok sampleReq)).1.statusField = some "moderated" ∧
    (POST (mkEnv "UNSAFE too violent") (.ok sampleReq)).1.message = some "E too violent" ∧
    ("E too violent" : String) ≠ "too violent" ∧
    (POST (mkEnv "UNSAFE") (.ok sampleReq)).1.message = some "E" ∧
    ("E" : String) ≠ "Content deemed unsafe." :=
  ⟨rfl, by decide, by decide, by decide, by decide⟩

/-- C7 (counterexample): the 401 authorization response carries no prompt
field, so not every response echoes the prompt. -/
theorem promptMissingFrom401 :
    (POST (mkEnv "SAFE") (.ok { sampleReq with sharedSecret := "wrong" })).1.httpStatus = 401 ∧
    (POST (mkEnv "SAFE") (.ok { sampleReq with sharedSecret := "wrong" })).1.prompt = none := by
  decide

/-- C7 (amended): every response other than the 401 authorization failure
echoes the prompt. -/
theorem promptEchoedOutside401 (env : Env) (body : Except String Req)
    (h : (POST env body).1.httpStatus ≠ 401) :
    (POST env body).1.prompt = some (recordedPrompt body) := by
  cases body with
  | error e => simp [POST, catchResponse, recordedPrompt]
  | ok req =>
    by_cases hs : req.sharedSecret ≠ env.sharedSecret
    · exact absurd (by simp [POST, hs]) h
    · simp only [POST, hs, if_false, recordedPrompt]
      rcases hm : env.moderate req.prompt with e | modRes
      · simp [catchResponse]
      · by_cases hu : jsStartsWith (jsToUpper (jsTrim modRes.text)) "UNSAFE" = true
        · simp [hu]
        · simp only [hu, Bool.false_eq_true, if_false]
          rcases hg : env.generate req.prompt with e | gr
          · simp [catchResponse]
          · rcases hc : gr.candidates with _ | ⟨_ | ⟨c, rest⟩⟩
            · simp [hc]
            · simp [hc]
            · rcases hip : c.content.parts.find? isImagePart with _ | ip
              · simp [hc, hip]
              · rcases hd : ip.inlineData with _ | d
                · simp [hc, hip, hd]
                · rcases hup : env.upload ("data:" ++ d.mimeType ++ ";base64," ++ d.data)
                    ("gemini-gen-" ++ Nat.repr env.now) with ce | ur
                  · simp [hc, hip, hd, hup]
                  · by_cases hurl : ur.secure_url.getD "" = ""
                    · simp [hc, hip, hd, hup, hurl]
                    · simp [hc, hip, hd, hup, hurl]

theorem promptEchoedOutside401_witness :
    (POST (mkEnv "SAFE") (.ok sampleReq)).1.httpStatus ≠ 401 ∧
    (POST (mkEnv "SAFE") (.ok sampleReq)).1.prompt = some "a cat" := by
  refine ⟨by decide, ?_⟩
  exact promptEchoedOutside401 (mkEnv "SAFE") (.ok sampleReq) (by decide)

/-- Every Cloudinary call the handler makes uses `gemini-gen-<Date.now()>`
as its `public_id`. -/
theorem uploadCalls_publicId (env : Env) (body : Except String Req) :
    ∀ c ∈ (POST env body).2.uploadCalls, c.2 = "gemini-gen-" ++ Nat.repr env.now := by
  cases body with
  | error e => simp [POST]
  | ok req =>
    by_cases hs : req.sharedSecret ≠ env.sharedSecret
    · simp [POST, hs]
    · simp only [POST, hs, if_false]
      rcases hm : env.moderate req.prompt with e | modRes
      · simp
      · by_cases hu : jsStartsWith (jsToUpper (jsTrim modRes.text)) "UNSAFE" = true
        · simp [hu]
        · simp only [hu, Bool.false_eq_true, if_false]
          rcases hg : env.generate req.prompt with e | gr
          · simp
          · rcases hc : gr.candidates with _ | ⟨_ | ⟨c, rest⟩⟩
            · simp [hc]
            · simp [hc]
            · rcases hip : c.content.parts.find? isImagePart with _ | ip
              · simp [hc, hip]
              · rcases hd : ip.inlineData with _ | d
                · simp [hc, hip, hd]
                · rcases hup : env.upload ("data:" ++ d.mimeType ++ ";base64," ++ d.data)
                    ("gemini-gen-" ++ Nat.repr env.now) with ce | ur
                  · simp [hc, hip, hd, hup]
                  · by_cases hurl : ur.secure_url.getD "" = ""
                    · simp [hc, hip, hd, hup, hurl]
                    · simp [hc, hip, hd, hup, hurl]

/-- C8 (counterexample): two distinct, sequential, successful requests that
observe the same `Date.now()` reading are stored under the same
`public_id`. -/
theorem publicIdCollision :
    sampleReq ≠ sampleReq2 ∧
    (POST (successEnv 1000) (.ok sampleReq)).1.statusField = some "success" ∧
    (POST (successEnv 1000) (.ok sampleReq2)).1.statusField = some "success" ∧
    (POST (successEnv 1000) (.ok sampleReq)).2.uploadCalls.map Prod.snd =
      ["gemini-gen-1000"] ∧
    (POST (successEnv 1000) (.ok sampleReq2)).2.uploadCalls.map Prod.snd =
      ["gemini-gen-1000"] := by
  decide

/-- C8 (amended): the stored-image identifier is `gemini-gen-<Date.now()>`,
so two successful requests get distinct identifiers exactly when their clock
readings differ. -/
theorem distinctClocksDistinctIds (env1 env2 : Env) (b1 b2 : Except String Req)
    (hnow : env1.now ≠ env2.now) :
    ∀ c1 ∈ (POST env1 b1).2.uploadCalls, ∀ c2 ∈ (POST env2 b2).2.uploadCalls,
      c1.2 ≠ c2.2 := by
  intro c1 h1 c2 h2 he
  rw [uploadCalls_publicId env1 b1 c1 h1, uploadCalls_publicId env2 b2 c2 h2] at he
  exact hnow (publicId_injective _ he)

theorem distinctClocksDistinctIds_witness :
    (successEnv 1).now ≠ (successEnv 2).now ∧
    ("data:image/png;base64,AAAA", "gemini-gen-1") ∈
      (POST (successEnv 1) (.ok sampleReq)).2.uploadCalls ∧
    ("data:image/png;base64,AAAA", "gemini-gen-2") ∈
      (POST (successEnv 2) (.ok sampleReq)).2.uploadCalls ∧
    ("gemini-gen-1" : String) ≠ "gemini-gen-2" :=
  ⟨by decide, by decide, by decide,
    distinctClocksDistinctIds (successEnv 1) (successEnv 2) (.ok sampleReq) (.ok sampleReq)
      (by decide) ("data:image/png;base64,AAAA", "gemini-gen-1") (by decide)
      ("data:image/png;base64,AAAA", "gemini-gen-2") (by decide)⟩

/-- C6: a successful PNG generation with caption `a red fox` leads to exactly
one upload call whose payload is the base64 bytes behind the
`data:image/png;base64,` data-URL, and the success response's
`generatedImage.caption` is `a red fox`. -/
theorem successRoundTrip (env : Env) (req : Req) (modRes : ModResult)
    (gr : GenResponse) (c : Candidate) (rest : List Candidate)
    (ip : Part) (bytes url : String)
    (hs : req.sharedSecret = env.sharedSecret)
    (hm : env.moderate req.prompt = .ok modRes)
    (hsafe : ¬jsStartsWith (jsToUpper (jsTrim modRes.text)) "UNSAFE" = true)
    (hg : env.generate req.prompt = .ok gr)
    (hc : gr.candidates = some (c :: rest))
    (hip : c.content.parts.find? isImagePart = some ip)
    (hd : ip.inlineData = some { mimeType := "image/png", data := bytes })
    (hcap : (match c.content.parts.find? isTextPart with
             | some tp => tp.text.getD ""
             | none => req.prompt) = "a red fox")
    (hup : env.upload ("data:image/png;base64," ++ bytes)
             ("gemini-gen-" ++ Nat.repr env.now) = .ok { secure_url := some url })
    (hurl : ¬url = "") :
    (POST env (.ok req)).2.uploadCalls =
      [("data:image/png;base64," ++ bytes, "gemini-gen-" ++ Nat.repr env.now)] ∧
    (POST env (.ok req)).1.statusField = some "success" ∧
    (POST env (.ok req)).1.generatedImage = some
      { mimeType := "image/png", caption := "a red fox", imageUrl := some url } := by
  simp [POST, hs, hm, hsafe, hg, hc, hip, hd, hcap, hup, hurl]

theorem successRoundTrip_witness :
    (POST (successEnv 5) (.ok sampleReq)).2.uploadCalls =
      [("data:image/png;base64,AAAA", "gemini-gen-5")] ∧
    (POST (successEnv 5) (.ok sampleReq)).1.statusField = some "success" ∧
    (POST (successEnv 5) (.ok sampleReq)).1.generatedImage = some
      { mimeType := "image/png", caption := "a red fox",
        imageUrl := some "https://cdn.example/img.png" } :=
  successRoundTrip (successEnv 5) sampleReq { text := "SAFE" }
    { candidates := some
        [{ content := { parts :=
            [{ text := some "a red fox" },
             { inlineData := some { mimeType := "image/png", data := "AAAA" } }] } }] }
    { content := { parts :=
        [{ text := some "a red fox" },
         { inlineData := some { mimeType := "image/png", data := "AAAA" } }] } }
    [] { inlineData := some { mimeType := "image/png", data := "AAAA" } }
    "AAAA" "https://cdn.example/img.png"
    rfl rfl (by decide) rfl rfl (by decide) rfl (by decide) rfl (by decide)

/-- Keys whose attempts throw advance the credential chain; the first
non-throwing attempt ends it with its extracted field. -/
theorem tryKeys_error_then_ok (env : Env2) (p : String) (ks : List String) (kN : String)
    (b : Option String)
    (hfail : ∀ k ∈ ks, ∃ e, env.stability p k = .error e)
    (hok : env.stability p kN = .ok b) :
    tryKeys env p (ks ++ [kN]) = (b, ks.length + 1) := by
  induction ks with
  | nil => simp [tryKeys, hok]
  | cons k ks ih =>
    obtain ⟨e, he⟩ := hfail k (List.mem_cons_self k ks)
    have hrest := ih (fun k' hk' => hfail k' (List.mem_cons_of_mem k hk'))
    simp [tryKeys, he, hrest]

/-- When every configured key throws, the chain tries them all and yields no
image. -/
theorem tryKeys_all_error (env : Env2) (p : String) (ks : List String)
    (hfail : ∀ k ∈ ks, ∃ e, env.stability p k = .error e) :
    tryKeys env p ks = (none, ks.length) := by
  induction ks with
  | nil => rfl
  | cons k ks ih =>
    obtain ⟨e, he⟩ := hfail k (List.mem_cons_self k ks)
    simp [tryKeys, he, ih (fun k' hk' => hfail k' (List.mem_cons_of_mem k hk'))]

/-- C3: with credentials 1..N-1 throwing and credential N succeeding, exactly
N primary attempts happen, Gemini is never called, and the uploaded image is
credential N's bytes. -/
theorem credentialFallback (env : Env2) (req : Req) (ks : List String) (kN : String)
    (b url : String)
    (hs : req.sharedSecret = env.sharedSecret)
    (hkeys : env.stabilityKeys = ks ++ [kN])
    (hfail : ∀ k ∈ ks, ∃ e, env.stability req.prompt k = .error e)
    (hok : env.stability req.prompt kN = .ok (some b))
    (hb : ¬b = "")
    (hup : env.upload ("data:image/png;base64," ++ b)
             ("generated-" ++ Nat.repr env.now) = .ok { secure_url := some url }) :
    (POSTv2 env (.ok req)).2.stabilityAttempts = ks.length + 1 ∧
    (POSTv2 env (.ok req)).2.geminiCalls = 0 ∧
    (POSTv2 env (.ok req)).2.uploadCalls =
      [("data:image/png;base64," ++ b, "generated-" ++ Nat.repr env.now)] ∧
    (POSTv2 env (.ok req)).1.statusField = some "success" ∧
    (POSTv2 env (.ok req)).1.imageUrl = some url := by
  have ht := tryKeys_error_then_ok env req.prompt ks kN (some b) hfail hok
  simp [POSTv2, hs, hkeys, ht, truthy, hb, uploadAndRespond, hup]

theorem credentialFallback_witness :
    (POSTv2 env2chain (.ok sampleReq)).2.stabilityAttempts = 2 ∧
    (POSTv2 env2chain (.ok sampleReq)).2.geminiCalls = 0 ∧
    (POSTv2 env2chain (.ok sampleReq)).2.uploadCalls =
      [("data:image/png;base64,IMG", "generated-7")] ∧
    (POSTv2 env2chain (.ok sampleReq)).1.statusField = some "success" ∧
    (POSTv2 env2chain (.ok sampleReq)).1.imageUrl = some "https://cdn.example/s.png" :=
  credentialFallback env2chain sampleReq ["k1"] "k2" "IMG" "https://cdn.example/s.png"
    rfl rfl
    (fun k hk => ⟨"bad", by obtain rfl := List.mem_singleton.mp hk; rfl⟩)
    rfl (by decide) rfl

/-- C4 (counterexample): a success-status response missing the image field on
key 1 does NOT advance to key 2: only one primary attempt happens and the
secondary provider is called even though key 2 was configured and working. -/
theorem missingImageFieldSkipsKeys :
    env2skip.stabilityKeys.length = 2 ∧
    env2skip.stability sampleReq.prompt "k2" = .ok (some "IMG") ∧
    (POSTv2 env2skip (.ok sampleReq)).2.stabilityAttempts = 1 ∧
    (POSTv2 env2skip (.ok sampleReq)).2.stabilityAttempts ≠ 2 ∧
    (POSTv2 env2skip (.ok sampleReq)).2.geminiCalls = 1 :=
  ⟨rfl, rfl, rfl, by decide, rfl⟩

/-- The upload step changes only the upload-call list of the log. -/
theorem uploadAndRespond_log (env : Env2) (req : Req)
    (b mime cap : String) (log : CallLog2) :
    (uploadAndRespond env req b mime cap log).2.stabilityAttempts = log.stabilityAttempts ∧
    (uploadAndRespond env req b mime cap log).2.geminiCalls = log.geminiCalls := by
  rcases h : env.upload ("data:" ++ mime ++ ";base64," ++ b) ("generated-" ++ Nat.repr env.now)
    with ce | ur <;> simp [uploadAndRespond, h]

/-- When no key yields a truthy base64 payload, the handler records the
attempts and calls the secondary provider exactly once. -/
theorem POSTv2_log_of_noStability (env : Env2) (req : Req) (n : Nat)
    (hs : req.sharedSecret = env.sharedSecret)
    (ht : tryKeys env req.prompt env.stabilityKeys = (none, n)) :
    (POSTv2 env (.ok req)).2.stabilityAttempts = n ∧
    (POSTv2 env (.ok req)).2.geminiCalls = 1 := by
  have hs' : ¬req.sharedSecret ≠ env.sharedSecret := by simp [hs]
  have htr : truthy (none : Option String) = false := rfl
  simp only [POSTv2, if_neg hs', ht, htr, Bool.false_eq_true, if_false]
  rcases hg : env.generate req.prompt with e | gr
  · simp
  · rcases hc : gr.candidates with _ | ⟨_ | ⟨c, rest⟩⟩
    · simp [hc]
    · simp [hc]
    · rcases hip : c.content.parts.find? isImagePart with _ | ip
      · simp [hc, hip]
      · rcases hd : ip.inlineData with _ | d
        · simp [hc, hip, hd]
        · by_cases hb : d.data = ""
          · simp [hc, hip, hd, hb]
          · have hl := uploadAndRespond_log env req d.data d.mimeType
              (match c.content.parts.find? isTextPart with
               | some textPart => textPart.text.getD ""
               | none => req.prompt)
              { stabilityAttempts := n, geminiCalls := 1, uploadCalls := [] }
            simp [hc, hip, hd, hb, hl.1, hl.2]

/-- C4 (amended): a thrown attempt (non-success HTTP status or malformed
payload) advances to the next candidate — next key, or the secondary
provider after the last key — but a success-status response without an image
field ends the key loop at once and goes straight to the secondary
provider. -/
theorem attemptFailureFallthrough (env : Env2) (req : Req)
    (hs : req.sharedSecret = env.sharedSecret) :
    (∀ k ks e, env.stability req.prompt k = .error e →
       tryKeys env req.prompt (k :: ks) =
         ((tryKeys env req.prompt ks).1, (tryKeys env req.prompt ks).2 + 1)) ∧
    ((∀ k ∈ env.stabilityKeys, ∃ e, env.stability req.prompt k = .error e) →
       (POSTv2 env (.ok req)).2.stabilityAttempts = env.stabilityKeys.length ∧
       (POSTv2 env (.ok req)).2.geminiCalls = 1) ∧
    (∀ k ks, env.stabilityKeys = k :: ks → env.stability req.prompt k = .ok none →
       (POSTv2 env (.ok req)).2.stabilityAttempts = 1 ∧
       (POSTv2 env (.ok req)).2.geminiCalls = 1) := by
  refine ⟨?_, ?_, ?_⟩
  · intro k ks e he
    simp [tryKeys, he]
  · intro hfail
    exact POSTv2_log_of_noStability env req env.stabilityKeys.length hs
      (tryKeys_all_error env req.prompt env.stabilityKeys hfail)
  · intro k ks hkeys hok
    have ht : tryKeys env req.prompt env.stabilityKeys = (none, 1) := by
      rw [hkeys]; simp [tryKeys, hok]
    exact POSTv2_log_of_noStability env req 1 hs ht

theorem attemptFailureFallthrough_witness :
    tryKeys env2allfail sampleReq.prompt ("k1" :: ["k2"]) =
      ((tryKeys env2allfail sampleReq.prompt ["k2"]).1,
       (tryKeys env2allfail sampleReq.prompt ["k2"]).2 + 1) ∧
    (POSTv2 env2allfail (.ok sampleReq)).2.stabilityAttempts = 2 ∧
    (POSTv2 env2allfail (.ok sampleReq)).2.geminiCalls = 1 :=
  have h := attemptFailureFallthrough env2allfail sampleReq rfl
  have hall := h.2.1 (fun _ _ => ⟨"bad", rfl⟩)
  ⟨h.1 "k1" ["k2"] "bad" rfl, hall.1, hall.2⟩

/-- C5: with every primary key throwing and the secondary provider returning
an empty or absent candidate set, the response is HTTP 500, status `error`,
with no imageUrl. -/
theorem exhaustionError (env : Env2) (req : Req) (gr : GenResponse)
    (hs : req.sharedSecret = env.sharedSecret)
    (hfail : ∀ k ∈ env.stabilityKeys, ∃ e, env.stability req.prompt k = .error e)
    (hg : env.generate req.prompt = .ok gr)
    (hc : gr.candidates = none ∨ gr.candidates = some []) :
    (POSTv2 env (.ok req)).1.httpStatus = 500 ∧
    (POSTv2 env (.ok req)).1.statusField = some "error" ∧
    (POSTv2 env (.ok req)).1.imageUrl = none ∧
    (POSTv2 env (.ok req)).1.message = some "No image candidates found" := by
  have ht := tryKeys_all_error env req.prompt env.stabilityKeys hfail
  rcases hc with hc | hc <;> simp [POSTv2, hs, ht, truthy, hg, hc]

theorem exhaustionError_witness :
    (POSTv2 env2allfail (.ok sampleReq)).1.httpStatus = 500 ∧
    (POSTv2 env2allfail (.ok sampleReq)).1.statusField = some "error" ∧
    (POSTv2 env2allfail (.ok sampleReq)).1.imageUrl = none ∧
    (POSTv2 env2allfail (.ok sampleReq)).1.message = some "No image candidates found" :=
  exhaustionError env2allfail sampleReq { candidates := some [] }
    rfl (fun _ _ => ⟨"bad", rfl⟩) rfl (Or.inr rfl)

end GeminiApi
